import Mathlib

/-!
Verification of `zmk_formatter.py` (ZMK keymap formatter).

The program is a line-oriented text formatter.  We embed it shallowly:
a document is a `List Line` where a `Line` is the `List Char` of one line's
content without its terminating newline (Python `readlines` keeps the
terminator, but every use of a line in the program first applies `strip` or
`rstrip`, so modelling lines without the trailing newline is faithful).

Python string helpers are modelled on `List Char`; `Char.isWhitespace`
covers exactly the whitespace characters (' ', '\t', '\r', '\n') that occur
in text documents, matching Python's `str.strip` on this character set.

The two scanning loops of the program advance a line index that strictly
increases on every iteration and is bounded by the line count, so each loop
performs at most `lines.length` (resp. `lines.length + blocks.length`)
iterations.  We encode them as structural recursion on a fuel argument
initialised above that bound, which makes every definition executable by
kernel reduction.
-/

namespace ZmkFormatter

abbrev Line := List Char

abbrev Cell := List Char

abbrev Grid := List (List Cell)

/-- A recorded bindings block: `(start, next_i, header line, grid)`,
mirroring the Python tuple `(i, next_i, lines[i].rstrip(), grid)`. -/
abbrev Block := Nat × Nat × Line × Grid

/-- Python `s.lstrip()`. -/
def pyLstrip (l : List Char) : List Char := l.dropWhile Char.isWhitespace

/-- Python `s.rstrip()`. -/
def pyRstrip (l : List Char) : List Char :=
  (l.reverse.dropWhile Char.isWhitespace).reverse

/-- Python `s.strip()`. -/
def pyStrip (l : List Char) : List Char := pyRstrip (pyLstrip l)

/-- Python `s.endswith(c)` for a single character `c`. -/
def endsWithChar (l : List Char) (c : Char) : Bool :=
  match l.getLast? with
  | some d => d == c
  | none => false

/-- Python `pat in s` (substring containment). -/
def containsSub (pat : List Char) : List Char → Bool
  | [] => pat.isPrefixOf []
  | c :: rest => pat.isPrefixOf (c :: rest) || containsSub pat rest

/-- Python `re.sub(r'//.*$', '', line)`: drop everything from the first
line-comment marker `//` to the end of the line. -/
def stripComment : List Char → List Char
  | [] => []
  | '/' :: '/' :: _ => []
  | c :: rest => c :: stripComment rest

/-- Python `s.rstrip('>;')`: strip trailing characters drawn from `{'>',';'}`. -/
def rstripGtSemi (l : List Char) : List Char :=
  (l.reverse.dropWhile (fun c => c == '>' || c == ';')).reverse

/-- Python `s.split(sep)` for a one-character separator. -/
def splitOnChar (sep : Char) : List Char → List (List Char)
  | [] => [[]]
  | c :: rest =>
    if c == sep then [] :: splitOnChar sep rest
    else
      match splitOnChar sep rest with
      | [] => [[c]]
      | g :: gs => (c :: g) :: gs

/-- Python `s.ljust(w)`. -/
def ljust (l : List Char) (w : Nat) : List Char :=
  l ++ List.replicate (w - l.length) ' '

/-- The substring `'bindings ='` that marks a bindings declaration line. -/
def bindingsPat : List Char := ['b', 'i', 'n', 'd', 'i', 'n', 'g', 's', ' ', '=']

/-- The literal `'TAB'` gap-marker cell. -/
def tabMarker : Cell := ['T', 'A', 'B']

/-- The fixed closing terminator line `'            >;'` (12 spaces). -/
def closingLine : Line := List.replicate 12 ' ' ++ ['>', ';']

/-- First loop of `parse_bindings_block`: starting from line `i` (the list
argument is `lines.drop i`), advance while the stripped line does not end
with `'<'`; returns the index of the first line ending in `'<'`, or the
line count if none is found before end-of-file. -/
def findOpenBracketAux : List Line → Nat → Nat
  | [], i => i
  | l :: rest, i =>
    if endsWithChar (pyStrip l) '<' then i else findOpenBracketAux rest (i + 1)

/-- `findOpenBracketAux` started at absolute index `i` of `lines`. -/
def findOpenBracket (lines : List Line) (i : Nat) : Nat :=
  findOpenBracketAux (lines.drop i) i

/-- Second loop of `parse_bindings_block`: accumulate content while the
angle-bracket balance is positive.  The list argument is `lines.drop i`;
per line: update the balance from the stripped line, strip the comment,
and append the fragment (preceded by a space) unless it is empty or starts
with `'>;'`.  Returns the accumulated content and the final index. -/
def parseLoopAux : List Line → Nat → Int → List Char → List Char × Nat
  | [], i, _, content => (content, i)
  | l :: rest, i, brace, content =>
    if brace > 0 then
      let line := pyStrip l
      let brace2 := brace + ((line.count '<' : Int) - (line.count '>' : Int))
      let line2 := pyStrip (stripComment line)
      let content2 :=
        if line2 ≠ [] ∧ (['>', ';'].isPrefixOf line2) = false then
          content ++ ' ' :: line2
        else content
      parseLoopAux rest (i + 1) brace2 content2
    else (content, i)

/-- `parse_bindings_block(lines, start_idx)`: extract the keycodes of the
bindings block starting at `start_idx` and the index of the first line after
it.  Tokenization: strip the joined content, strip trailing `'>'`/`';'`,
split on `'&'`, and re-prefix `'&'` to every non-empty stripped fragment. -/
def parse_bindings_block (lines : List Line) (start_idx : Nat) :
    List Cell × Nat :=
  let j := findOpenBracket lines start_idx + 1
  let r := parseLoopAux (lines.drop j) j 1 []
  let content := rstripGtSemi (pyStrip r.1)
  let keycodes := (splitOnChar '&' content).filterMap (fun part =>
    let p := pyStrip part
    if p = [] then none else some ('&' :: p))
  (keycodes, r.2)

/-- The `while len(keycodes) < 42: keycodes.append('')` padding step. -/
def padTo42 (keycodes : List Cell) : List Cell :=
  keycodes ++ List.replicate (42 - keycodes.length) []

/-- The five filler cells `['', '', 'TAB', '', '']` inserted between the
two halves of rows 1–3. -/
def midPad : List Cell := [[], [], tabMarker, [], []]

/-- `format_bindings_grid(keycodes)`: pad to 42 cells and arrange into the
4-row grid.  Rows 1–3 are `keycodes[idx:idx+6] + ['','','TAB','',''] +
keycodes[idx+6:idx+12]` for `idx = 0, 12, 24`; row 4 is
`['',''] + keycodes[36:42] + ['TAB'] + keycodes[42:48] + ['','']`. -/
def format_bindings_grid (keycodes : List Cell) : Grid :=
  let k := padTo42 keycodes
  [k.take 6 ++ midPad ++ (k.drop 6).take 6,
   (k.drop 12).take 6 ++ midPad ++ (k.drop 18).take 6,
   (k.drop 24).take 6 ++ midPad ++ (k.drop 30).take 6,
   [[], []] ++ (k.drop 36).take 6 ++ [tabMarker] ++ (k.drop 42).take 6 ++ [[], []]]

/-- Inner fold of `calculate_global_widths`: the maximum length over all
grids and rows of the cell at column `col`, counting only in-range,
non-empty cells different from the `'TAB'` marker. -/
def colMax (grids : List Grid) (col : Nat) : Nat :=
  grids.foldl (fun acc g =>
    g.foldl (fun acc2 row =>
      match row.get? col with
      | some cell =>
        if cell ≠ [] ∧ cell ≠ tabMarker then max acc2 cell.length else acc2
      | none => acc2) acc) 0

/-- `calculate_global_widths(all_grids)`: one width per column of the first
grid's first row; column 8 (the TAB column) gets width 0; otherwise the
maximum cell length plus one, or 1 if the column is empty everywhere. -/
def calculate_global_widths (all_grids : List Grid) : List Nat :=
  match all_grids with
  | [] => []
  | g :: _ =>
    let num_cols := (g.headD []).length
    (List.range num_cols).map (fun col =>
      if col = 8 then 0
      else
        let m := colMax all_grids col
        if m > 0 then m + 1 else 1)

/-- `format_grid_to_lines(grid, widths)`: per row, left-justify every cell
to its column width, skipping column 8 and prefixing a tab at column 9,
then join and right-strip. -/
def format_grid_to_lines (grid : Grid) (widths : List Nat) : List Line :=
  grid.map (fun row =>
    pyRstrip (List.flatten (row.enum.filterMap (fun pc =>
      if pc.1 = 8 then none
      else if pc.1 = 9 then some ('\t' :: ljust pc.2 (widths.getD pc.1 0))
      else some (ljust pc.2 (widths.getD pc.1 0))))))

/-- The block-collection loop of `format_zmk_file`: from line `i`, whenever
the raw line contains `'bindings ='`, parse the block; record it when the
keycode list is non-empty; continue at the returned index, else at `i + 1`.
`fuel` bounds the iteration count; the index strictly increases each step,
so any fuel of at least `lines.length + 1 - i` gives the loop's behaviour. -/
def scanBlocksAux (lines : List Line) : Nat → Nat → List Block
  | 0, _ => []
  | fuel + 1, i =>
    if i < lines.length then
      if containsSub bindingsPat (lines.getD i []) then
        let p := parse_bindings_block lines i
        if p.1 = [] then scanBlocksAux lines fuel p.2
        else (i, p.2, pyRstrip (lines.getD i []), format_bindings_grid p.1) ::
          scanBlocksAux lines fuel p.2
      else scanBlocksAux lines fuel (i + 1)
    else []

/-- The block-collection loop run from line 0 with sufficient fuel. -/
def scanBlocks (lines : List Line) : List Block :=
  scanBlocksAux lines (lines.length + 1) 0

/-- The output-generation loop of `format_zmk_file`: walk the lines; at the
start line of the next recorded block emit the stored header line, the
non-blank formatted grid lines and the closing terminator, then resume at
the block's end index; otherwise emit the right-stripped line.  `fuel`
bounds the iteration count as in `scanBlocksAux`. -/
def emitLoopAux (lines : List Line) (widths : List Nat) :
    Nat → List Block → Nat → List Line
  | 0, _, _ => []
  | fuel + 1, blocks, i =>
    if i < lines.length then
      match blocks with
      | [] => pyRstrip (lines.getD i []) :: emitLoopAux lines widths fuel [] (i + 1)
      | (start, next_i, header, grid) :: rest =>
        if i = start then
          header ::
            ((format_grid_to_lines grid widths).filter
                (fun l => !(pyStrip l).isEmpty) ++
              closingLine :: emitLoopAux lines widths fuel rest next_i)
        else
          pyRstrip (lines.getD i []) ::
            emitLoopAux lines widths fuel ((start, next_i, header, grid) :: rest) (i + 1)
    else []

/-- The complete generated output document for a scanned file: global widths
are computed over all recorded grids, then the emission loop is run from
line 0. -/
def generatedOutput (lines : List Line) : List Line :=
  let blocks := scanBlocks lines
  let all_grids := blocks.map (fun b => b.2.2.2)
  let widths := calculate_global_widths all_grids
  emitLoopAux lines widths (lines.length + blocks.length + 1) blocks 0

/-- Result of one run of `format_zmk_file` on an in-memory document:
either the success path that found no blocks and writes nothing, or the
success path that writes a full replacement document. -/
inductive FmtResult where
  | noBlocks : FmtResult
  | written : List Line → FmtResult
deriving DecidableEq

/-- `format_zmk_file`: scan for blocks; if none were recorded report the
no-op success, otherwise compute the global widths, generate the output and
write it. -/
def format_zmk_file (lines : List Line) : FmtResult :=
  let blocks := scanBlocks lines
  if blocks.isEmpty then FmtResult.noBlocks
  else FmtResult.written (generatedOutput lines)

/-- The file contents on disk after one run, given the contents before. -/
def fileAfterFormat (lines : List Line) : List Line :=
  match format_zmk_file lines with
  | FmtResult.noBlocks => lines
  | FmtResult.written out => out

/-- The byte sequence written on the success path:
`'\n'.join(output_lines) + '\n'`. -/
def writtenText (out : List Line) : List Char :=
  List.intercalate ['\n'] out ++ ['\n']

/-- The ordered list of real token cells of a grid: all cells that are
neither empty nor the `'TAB'` marker, in row-major order. -/
def gridTokens (grid : Grid) : List Cell :=
  (List.flatten grid).filter (fun c => decide (c ≠ [] ∧ c ≠ tabMarker))

/-- Convenience for writing concrete documents: a line from a string literal. -/
def strLine (s : String) : Line := s.toList

/-! ### General lemmas about the grid layout -/

/-- Splitting a 48-prefix into the eight 6-cell slices used by the grid rows. -/
theorem take48_decomp (l : List Cell) :
    l.take 48 = l.take 6 ++ ((l.drop 6).take 6 ++ ((l.drop 12).take 6 ++
      ((l.drop 18).take 6 ++ ((l.drop 24).take 6 ++ ((l.drop 30).take 6 ++
      ((l.drop 36).take 6 ++ (l.drop 42).take 6)))))) := by
  rw [show (48 : Nat) = 6 + (6 + (6 + (6 + (6 + (6 + (6 + 6)))))) from rfl]
  rw [List.take_add, List.take_add, List.take_add, List.take_add, List.take_add,
    List.take_add, List.take_add]
  simp [List.drop_drop]

/-- The token cells of a built grid are exactly the non-empty cells among the
first 48 padded keycodes: the filler cells are all empty or the marker. -/
theorem gridTokens_format_bindings_grid (k : List Cell) :
    gridTokens (format_bindings_grid k) =
      ((padTo42 k).take 48).filter (fun c => decide (c ≠ [] ∧ c ≠ tabMarker)) := by
  rw [take48_decomp (padTo42 k)]
  simp [gridTokens, format_bindings_grid, midPad, List.filter_append]

/-! ### C3: token preservation -/

/-- C3 (counterexample): the claim that padding never drops a token, even
when the raw token count exceeds the fixed grid capacity, is false: a block
with 49 tokens loses its 49th token — the grid only places the first 48
cells (rows 1–3 take indices 0–35, row 4 takes indices 36–47), so the grid
token list has length 48, not 49. -/
theorem c3_counterexample :
    gridTokens (format_bindings_grid (List.replicate 49 ['&', 'a'])) =
        List.replicate 48 ['&', 'a'] ∧
      gridTokens (format_bindings_grid (List.replicate 49 ['&', 'a'])) ≠
        List.replicate 49 ['&', 'a'] := by
  constructor
  · decide
  · decide

/-- C3 (amended): for a bindings block with at most 48 tokens, the ordered
list of tokens placed in the grid equals the extracted keycode list exactly
— padding only adds empty cells and drops nothing.  (Beyond 48 tokens the
excess is dropped, see the counterexample.) -/
theorem c3_amended (k : List Cell) (hlen : k.length ≤ 48)
    (hne : ∀ t ∈ k, t ≠ [] ∧ t ≠ tabMarker) :
    gridTokens (format_bindings_grid k) = k := by
  rw [gridTokens_format_bindings_grid]
  have hpad : padTo42 k = k ++ List.replicate (42 - k.length) [] := rfl
  rw [hpad, List.take_append_eq_append_take, List.take_of_length_le hlen,
    List.take_replicate, List.filter_append]
  have h1 : k.filter (fun c => decide (c ≠ [] ∧ c ≠ tabMarker)) = k := by
    rw [List.filter_eq_self]
    intro a ha
    exact decide_eq_true (hne a ha)
  have h2 : (List.replicate (min (48 - k.length) (42 - k.length)) ([] : Cell)).filter
      (fun c => decide (c ≠ [] ∧ c ≠ tabMarker)) = [] := by
    rw [List.filter_eq_nil_iff]
    intro a ha
    rw [List.eq_of_mem_replicate ha]
    decide
  rw [h1, h2, List.append_nil]

/-- C3 (witness): the amended theorem applied to a concrete one-token block. -/
theorem c3_witness : gridTokens (format_bindings_grid [['&', 'a']]) = [['&', 'a']] :=
  c3_amended [['&', 'a']] (by decide) (by decide)

/-! ### C6: grid shape -/

/-- C6 (counterexample): the claim that every row of a grid has the same
column count is false: for a one-token block, rows 1–3 have 17 cells but
row 4 has only 11 (its slice `keycodes[42:48]` of the 42-cell padded list
is empty). -/
theorem c6_counterexample :
    ((format_bindings_grid [['&', 'a']]).getD 0 []).length = 17 ∧
    ((format_bindings_grid [['&', 'a']]).getD 3 []).length = 11 := by
  constructor
  · decide
  · decide

/-- C6 (amended): every grid has exactly 4 rows; rows 1–3 each have exactly
17 cells (the same shape for every block); but row 4 has
`11 + min (n - 42) 6` cells for a block of `n` tokens — 11 cells whenever
the block has at most 42 tokens — so row 4's column count differs from
rows 1–3.  Width indices come from the first row's 17 columns, and shorter
rows are handled by the bounds check in the width calculator. -/
theorem c6_amended (k : List Cell) :
    (format_bindings_grid k).length = 4 ∧
    (∀ i < 3, ((format_bindings_grid k).getD i []).length = 17) ∧
    ((format_bindings_grid k).getD 3 []).length = 11 + min (k.length - 42) 6 := by
  have hlen : (padTo42 k).length = k.length + (42 - k.length) := by
    simp [padTo42]
  refine ⟨rfl, ?_, ?_⟩
  · intro i hi
    interval_cases i <;>
    · simp only [format_bindings_grid, List.getD, List.getElem?_cons_succ,
        List.getElem?_cons_zero, Option.getD_some]
      simp [List.length_append, List.length_take, List.length_drop, hlen, midPad]
      omega
  · simp only [format_bindings_grid, List.getD, List.getElem?_cons_succ,
      List.getElem?_cons_zero, Option.getD_some]
    simp [List.length_append, List.length_take, List.length_drop, hlen]
    omega

/-! ### C7: rendered line count per block -/

/-- C7 (amended, part 1 of the claim): the renderer itself always produces
exactly 4 lines for a block grid, one per grid row. -/
theorem c7_amended (k : List Cell) (w : List Nat) :
    (format_grid_to_lines (format_bindings_grid k) w).length = 4 := by
  simp [format_grid_to_lines, format_bindings_grid]

/-- C7 (counterexample): the number of grid lines emitted into the output
document is not always 4: the document rewriter filters out blank rendered
lines, so this two-token block contributes exactly one grid line — the
written output has 5 lines (two passthrough lines, the header, one grid
line, the closing terminator) instead of the 8 the claim would require. -/
theorem c7_counterexample :
    format_zmk_file (["x \x7b", "    bindings = <", "        &kp Q &kp W", "    >;",
        "\x7d;"].map strLine) =
      FmtResult.written (["x \x7b", "    bindings = <", "&kp Q &kp W",
        "            >;", "\x7d;"].map strLine) := by
  decide

/-! ### Lemmas about the scanning loop -/

/-- The scan yields nothing at or beyond the end of the document. -/
theorem scanBlocksAux_stop (lines : List Line) (fuel i : Nat)
    (h : ¬ i < lines.length) : scanBlocksAux lines fuel i = [] := by
  cases fuel <;> simp [scanBlocksAux, h]

/-! ### C1: which bindings lists are detected -/

/-- C1 (amended): block detection is purely a substring test on the single
candidate line, with no dependence on the enclosing container: a line
without `'bindings ='` is skipped, and every line containing `'bindings ='`
starts a block (recorded whenever its keycode list is non-empty) whether it
sits inside a layer, a combo, a macro, or anything else.  There is no
layer classification anywhere in the scan. -/
theorem c1_amended (lines : List Line) (fuel i : Nat) :
    (containsSub bindingsPat (lines.getD i []) = false →
      scanBlocksAux lines (fuel + 1) i = scanBlocksAux lines fuel (i + 1)) ∧
    (i < lines.length → containsSub bindingsPat (lines.getD i []) = true →
      scanBlocksAux lines (fuel + 1) i =
        (if (parse_bindings_block lines i).1 = [] then
          scanBlocksAux lines fuel (parse_bindings_block lines i).2
        else
          (i, (parse_bindings_block lines i).2, pyRstrip (lines.getD i []),
              format_bindings_grid (parse_bindings_block lines i).1) ::
            scanBlocksAux lines fuel (parse_bindings_block lines i).2)) := by
  constructor
  · intro h
    by_cases hi : i < lines.length
    · rw [List.getD_eq_getElem lines [] hi] at h
      simp [scanBlocksAux, hi, h]
    · rw [scanBlocksAux_stop lines (fuel + 1) i hi,
        scanBlocksAux_stop lines fuel (i + 1) (by omega)]
  · intro hi h
    rw [List.getD_eq_getElem lines [] hi] at h
    simp [scanBlocksAux, hi, h, List.getD_eq_getElem lines [] hi]

/-- C1 (witness): the amended theorem applied to a concrete document and
line index. -/
theorem c1_witness :
    scanBlocksAux (["layer_a \x7b", "x"].map strLine) 2 1 =
      scanBlocksAux (["layer_a \x7b", "x"].map strLine) 1 2 :=
  (c1_amended (["layer_a \x7b", "x"].map strLine) 1 1).1 (by decide)

/-- C1 (counterexample): a document whose only bindings list sits inside a
combo definition — not a layer — is still counted as a formatted block
(count 1, not 0) and the file is rewritten, contradicting the claim that
such lists are left untouched and never appear in the formatted-block
count. -/
theorem c1_counterexample :
    (scanBlocks (["combos \x7b", "  combo_esc \x7b", "    bindings = <",
        "      &kp ESC", "    >;", "  \x7d;", "\x7d;"].map strLine)).length = 1 ∧
    fileAfterFormat (["combos \x7b", "  combo_esc \x7b", "    bindings = <",
        "      &kp ESC", "    >;", "  \x7d;", "\x7d;"].map strLine) ≠
      (["combos \x7b", "  combo_esc \x7b", "    bindings = <",
        "      &kp ESC", "    >;", "  \x7d;", "\x7d;"].map strLine) := by
  constructor
  · decide
  · decide

/-! ### C2: malformed blocks -/

/-- C2 (amended): when the forward scan reaches end-of-file before finding
a line ending in the opening angle bracket, the block simply yields an
empty keycode list — no error is raised and the file is not rejected.
(When the bracket balance never returns to zero the tokens accumulated up
to end-of-file are formatted, and the file is still written whenever any
scanned block yielded tokens; see the counterexample.) -/
theorem c2_amended (lines : List Line) (i : Nat)
    (h : findOpenBracket lines i = lines.length) :
    (parse_bindings_block lines i).1 = [] := by
  have hdrop : lines.drop (findOpenBracket lines i + 1) = [] := by
    rw [h]
    exact List.drop_eq_nil_of_le (by omega)
  simp [parse_bindings_block, hdrop, parseLoopAux, pyStrip, pyLstrip, pyRstrip,
    rstripGtSemi, splitOnChar]

/-- C2 (witness): the amended theorem applied to a one-line document whose
bindings declaration never reaches an opening bracket. -/
theorem c2_witness : (parse_bindings_block [strLine "bindings ="] 0).1 = [] :=
  c2_amended [strLine "bindings ="] 0 (by decide)

/-- C2 (counterexample): a document whose bindings block hits end-of-file
with the bracket balance still positive is not rejected: the run succeeds
and the file is rewritten (here even gaining a closing terminator line),
contradicting the claimed malformed-block error with no write. -/
theorem c2_counterexample :
    format_zmk_file (["bindings = <", "&kp A"].map strLine) =
      FmtResult.written (["bindings = <", "&kp A", "            >;"].map strLine) ∧
    (["bindings = <", "&kp A", "            >;"].map strLine) ≠
      (["bindings = <", "&kp A"].map strLine) := by
  constructor
  · decide
  · decide

/-! ### C8: the no-blocks no-op -/

/-- C8 (amended): when the scan records zero bindings blocks (none at all,
or only blocks whose keycode list is empty), the run reports the no-op
success and performs no write: the file is unchanged.  The code counts
bindings blocks of every container kind, not layer blocks — see the
counterexample. -/
theorem c8_amended (lines : List Line) (h : scanBlocks lines = []) :
    format_zmk_file lines = FmtResult.noBlocks ∧ fileAfterFormat lines = lines := by
  have h1 : format_zmk_file lines = FmtResult.noBlocks := by
    simp [format_zmk_file, h]
  exact ⟨h1, by simp [fileAfterFormat, h1]⟩

/-- C8 (witness): the amended theorem applied to a document with no
bindings declaration. -/
theorem c8_witness :
    format_zmk_file [strLine "hello"] = FmtResult.noBlocks ∧
      fileAfterFormat [strLine "hello"] = [strLine "hello"] :=
  c8_amended [strLine "hello"] (by decide)

/-- C8 (counterexample): a document containing zero layer bindings blocks
— its only bindings list lives in a macro definition — is nevertheless
rewritten: the run does not take the no-op path and the on-disk bytes
change, contradicting the claim. -/
theorem c8_counterexample :
    format_zmk_file (["macros \x7b", "  my_macro: my_macro \x7b", "    bindings = <",
        "      &kp A", "    >;", "  \x7d;", "\x7d;"].map strLine) ≠
      FmtResult.noBlocks ∧
    fileAfterFormat (["macros \x7b", "  my_macro: my_macro \x7b", "    bindings = <",
        "      &kp A", "    >;", "  \x7d;", "\x7d;"].map strLine) ≠
      (["macros \x7b", "  my_macro: my_macro \x7b", "    bindings = <",
        "      &kp A", "    >;", "  \x7d;", "\x7d;"].map strLine) := by
  constructor
  · decide
  · decide

/-! ### C10: blocks with no keycodes -/

/-- C10: a detected bindings declaration whose tokenization yields zero
keycodes is excluded from the recorded block list — and hence from the
processed-block count and the width calculation, which range over that
list — and, because no recorded block starts at its lines, the emission
loop emits each of its original lines verbatim, right-trimmed only. -/
theorem c10_empty_block_excluded :
    (∀ (lines : List Line) (fuel i : Nat), i < lines.length →
      containsSub bindingsPat (lines.getD i []) = true →
      (parse_bindings_block lines i).1 = [] →
      scanBlocksAux lines (fuel + 1) i =
        scanBlocksAux lines fuel (parse_bindings_block lines i).2) ∧
    (∀ (lines : List Line) (widths : List Nat) (fuel i : Nat),
      i < lines.length →
      emitLoopAux lines widths (fuel + 1) [] i =
        pyRstrip (lines.getD i []) :: emitLoopAux lines widths fuel [] (i + 1)) ∧
    (∀ (lines : List Line) (widths : List Nat) (fuel i start next_i : Nat)
      (header : Line) (grid : Grid) (rest : List Block),
      i < lines.length → i ≠ start →
      emitLoopAux lines widths (fuel + 1) ((start, next_i, header, grid) :: rest) i =
        pyRstrip (lines.getD i []) ::
          emitLoopAux lines widths fuel ((start, next_i, header, grid) :: rest) (i + 1)) := by
  refine ⟨?_, ?_, ?_⟩
  · intro lines fuel i hi hpat hempty
    rw [List.getD_eq_getElem lines [] hi] at hpat
    simp [scanBlocksAux, hi, hpat, hempty]
  · intro lines widths fuel i hi
    simp [emitLoopAux, hi]
  · intro lines widths fuel i start next_i header grid rest hi hne
    simp [emitLoopAux, hi, hne]

/-- C10 (witness): the exclusion and the verbatim pass-through applied to a
concrete document whose bindings block contains no keycodes. -/
theorem c10_witness :
    scanBlocksAux (["bindings = <", ">;"].map strLine) 3 0 =
        scanBlocksAux (["bindings = <", ">;"].map strLine) 2 2 ∧
      emitLoopAux (["bindings = <", ">;"].map strLine) [] 3 [] 0 =
        strLine "bindings = <" :: emitLoopAux (["bindings = <", ">;"].map strLine) [] 2 [] 1 := by
  constructor
  · have h := c10_empty_block_excluded.1 (["bindings = <", ">;"].map strLine) 2 0
      (by decide) (by decide) (by decide)
    have h2 : (parse_bindings_block (["bindings = <", ">;"].map strLine) 0).2 = 2 := by decide
    rw [h2] at h
    exact h
  · have h := c10_empty_block_excluded.2.1 (["bindings = <", ">;"].map strLine) [] 2 0 (by decide)
    have h3 : pyRstrip ((["bindings = <", ">;"].map strLine).getD 0 []) = strLine "bindings = <" := by
      decide
    rw [h3] at h
    exact h

/-! ### C4: idempotence -/

/-- C4 (evidence of the code bug): formatting is not idempotent.  For this
document — whose first bindings declaration has its opening `'<'` on a
separate line — the first run drops the `'<'` line from its output (the
rewriter re-emits only the header line before the rendered grid), so the
second run's forward scan for a line ending in `'<'` runs into the second
block: the second output merges the two block regions, replaces block 1's
token with block 2's, and loses lines.  Running the formatter on its own
output changes the bytes again. -/
theorem c4_evidence :
    format_zmk_file (["a \x7b", "bindings =", "<", "&kp A", ">;", "\x7d;", "b \x7b",
        "bindings = <", "&kp B", ">;", "\x7d;"].map strLine) =
      FmtResult.written (["a \x7b", "bindings =", "&kp A", "            >;", "\x7d;",
        "b \x7b", "bindings = <", "&kp B", "            >;", "\x7d;"].map strLine) ∧
    format_zmk_file (["a \x7b", "bindings =", "&kp A", "            >;", "\x7d;",
        "b \x7b", "bindings = <", "&kp B", "            >;", "\x7d;"].map strLine) =
      FmtResult.written (["a \x7b", "bindings =", "&kp B", "            >;",
        "\x7d;"].map strLine) ∧
    (["a \x7b", "bindings =", "&kp B", "            >;", "\x7d;"].map strLine) ≠
      (["a \x7b", "bindings =", "&kp A", "            >;", "\x7d;", "b \x7b",
        "bindings = <", "&kp B", "            >;", "\x7d;"].map strLine) := by
  refine ⟨?_, ?_, ?_⟩
  · decide
  · decide
  · decide

/-! ### C5: all-or-nothing rewrite -/

/-- C5: the file contents after a run are either exactly the contents
before (no-blocks path, and the only conceivable failure exits of the code
all return before the write call) or exactly the completely generated
output document — never a partial rewrite.  The scanning, width-calculation
and output-generation stages are total functions of the document, so no
error can interrupt them, and the single write is the last step of the
run. -/
theorem c5_all_or_nothing (lines : List Line) :
    fileAfterFormat lines = lines ∨
      (format_zmk_file lines = FmtResult.written (generatedOutput lines) ∧
        fileAfterFormat lines = generatedOutput lines) := by
  by_cases h : (scanBlocks lines).isEmpty
  · left
    simp [fileAfterFormat, format_zmk_file, h]
  · right
    constructor
    · simp [format_zmk_file, h]
    · simp [fileAfterFormat, format_zmk_file, h]

/-! ### C9: shape of the written bytes -/

/-- Dropping a prefix satisfying `p` twice is the same as dropping it once. -/
theorem dropWhile_self_idem (p : Char → Bool) (l : List Char) :
    List.dropWhile p (List.dropWhile p l) = List.dropWhile p l := by
  induction l with
  | nil => rfl
  | cons c rest ih =>
    by_cases hc : p c
    · simp [List.dropWhile_cons, hc, ih]
    · simp [List.dropWhile_cons, hc]

/-- Python `rstrip` is idempotent. -/
theorem pyRstrip_idem (l : List Char) : pyRstrip (pyRstrip l) = pyRstrip l := by
  unfold pyRstrip
  rw [List.reverse_reverse, dropWhile_self_idem]

/-- Every line the renderer produces is right-stripped. -/
theorem format_grid_to_lines_rstrip (g : Grid) (w : List Nat) :
    ∀ l ∈ format_grid_to_lines g w, pyRstrip l = l := by
  intro l hl
  simp only [format_grid_to_lines, List.mem_map] at hl
  obtain ⟨row, -, rfl⟩ := hl
  exact pyRstrip_idem _

/-- Every block header the scan records is right-stripped. -/
theorem scanBlocksAux_header_rstrip (lines : List Line) :
    ∀ fuel i, ∀ b ∈ scanBlocksAux lines fuel i, pyRstrip b.2.2.1 = b.2.2.1 := by
  intro fuel
  induction fuel with
  | zero =>
    intro i b hb
    simp [scanBlocksAux] at hb
  | succ n ih =>
    intro i b hb
    simp only [scanBlocksAux] at hb
    split at hb
    · split at hb
      · split at hb
        · exact ih _ b hb
        · rcases List.mem_cons.mp hb with rfl | hb'
          · exact pyRstrip_idem _
          · exact ih _ b hb'
      · exact ih _ b hb
    · simp at hb

/-- Every line the emission loop produces is right-stripped, provided every
recorded block header is. -/
theorem emitLoopAux_rstrip (lines : List Line) (widths : List Nat) :
    ∀ fuel (blocks : List Block) i,
      (∀ b ∈ blocks, pyRstrip b.2.2.1 = b.2.2.1) →
      ∀ l ∈ emitLoopAux lines widths fuel blocks i, pyRstrip l = l := by
  intro fuel
  induction fuel with
  | zero =>
    intro blocks i hB l hl
    simp [emitLoopAux] at hl
  | succ n ih =>
    intro blocks i hB l hl
    match blocks with
    | [] =>
      simp only [emitLoopAux] at hl
      split at hl
      · rcases List.mem_cons.mp hl with rfl | hl'
        · exact pyRstrip_idem _
        · exact ih [] (i + 1) hB l hl'
      · simp at hl
    | (start, next_i, header, grid) :: rest =>
      simp only [emitLoopAux] at hl
      split at hl
      · split at hl
        · rcases List.mem_cons.mp hl with rfl | hl'
          · exact hB _ (List.mem_cons_self _ _)
          · rcases List.mem_append.mp hl' with hg | hc
            · exact format_grid_to_lines_rstrip grid widths l (List.mem_filter.mp hg).1
            · rcases List.mem_cons.mp hc with rfl | he
              · decide
              · exact ih rest next_i (fun b hb => hB b (List.mem_cons_of_mem _ hb)) l he
        · rcases List.mem_cons.mp hl with rfl | hl'
          · exact pyRstrip_idem _
          · exact ih _ (i + 1) hB l hl'
      · simp at hl

/-- C9 (amended): on every run that writes, each emitted line carries no
trailing whitespace (it is a fixed point of `rstrip`), the lines are joined
with single newline characters, and the written byte sequence ends with a
newline — exactly one newline follows the final emitted line, but when the
document's last line is blank the text ends in more than one newline
character in a row (see the counterexample), so "exactly one trailing
newline" does not hold of the byte sequence itself. -/
theorem c9_amended (lines out : List Line)
    (h : format_zmk_file lines = FmtResult.written out) :
    (∀ l ∈ out, pyRstrip l = l) ∧
      writtenText out = List.intercalate ['\n'] out ++ ['\n'] ∧
      (writtenText out).getLast? = some '\n' := by
  have hout : out = generatedOutput lines := by
    by_cases hb : (scanBlocks lines).isEmpty
    · simp [format_zmk_file, hb] at h
    · simp [format_zmk_file, hb] at h
      exact h.symm
  refine ⟨?_, rfl, ?_⟩
  · intro l hl
    rw [hout] at hl
    exact emitLoopAux_rstrip lines _ _ (scanBlocks lines) 0
      (fun b hb => scanBlocksAux_header_rstrip lines _ 0 b hb) l hl
  · unfold writtenText
    exact List.getLast?_concat _

/-- C9 (witness): the amended theorem applied to a concrete document. -/
theorem c9_witness :
    (∀ l ∈ (["bindings = <", "&kp C", "            >;"].map strLine),
        pyRstrip l = l) ∧
      writtenText (["bindings = <", "&kp C", "            >;"].map strLine) =
        List.intercalate ['\n']
          (["bindings = <", "&kp C", "            >;"].map strLine) ++ ['\n'] ∧
      (writtenText
          (["bindings = <", "&kp C", "            >;"].map strLine)).getLast? =
        some '\n' :=
  c9_amended (["bindings = <", "&kp C", ">;"].map strLine)
    (["bindings = <", "&kp C", "            >;"].map strLine) (by decide)

/-- C9 (counterexample): the written output does not always end with
exactly one trailing newline: a document whose last line is blank is
re-emitted with that blank line, and `'\n'.join(...) + '\n'` then ends
with two consecutive newline characters. -/
theorem c9_counterexample :
    format_zmk_file (["bindings = <", "&mo 1", ">;", ""].map strLine) =
      FmtResult.written (["bindings = <", "&mo 1", "            >;", ""].map strLine) ∧
    List.isSuffixOf ['\n', '\n']
      (writtenText (["bindings = <", "&mo 1", "            >;", ""].map strLine)) =
      true := by
  constructor
  · decide
  · decide

end ZmkFormatter
